import Mathlib

/-!
Verification of the resource-translation / connection-pooling core of the
py-webdav-sftp repository (src/webdav_sftp.py), shallowly embedded in Lean 4.

Paths are `String`s; byte contents are `List Nat`; the remote SFTP state is a
finite map from remote path to node; the connection pool is a small labelled
transition system whose events are the control-flow paths of
`SFTPConnectionPool.get_connection`.
-/

namespace PyWebdavSftp

/- ============================================================================
   Path translation (`SFTPProvider._to_remote_path` and posixpath helpers)
   ============================================================================ -/

/-- Python `s.lstrip('/')`: drop every leading `'/'`. -/
def lstripSlashes (s : String) : String :=
  String.mk (s.toList.dropWhile (fun c => c = '/'))

/-- Does the string start with `'/'`? -/
def startsWithSlash (s : String) : Bool :=
  match s.toList with
  | [] => false
  | c :: _ => c = '/'

/-- Does the string end with `'/'`? -/
def endsWithSlash (s : String) : Bool :=
  match s.toList.getLast? with
  | none => false
  | some c => c = '/'

/-- `posixpath.join(a, b)` for a single extra component, as implemented in
CPython: an absolute `b` replaces `a`; otherwise insert `'/'` unless `a` is
empty or already ends with one. -/
def posixpathJoin (a b : String) : String :=
  if startsWithSlash b then b
  else if a = "" ∨ endsWithSlash a then a ++ b
  else a ++ "/" ++ b

/-- `SFTPProvider._to_remote_path`: join the configured remote root with the
DAV path stripped of leading separators — plain concatenation, nothing else. -/
def to_remote_path (root dav_path : String) : String :=
  posixpathJoin root (lstripSlashes dav_path)

/- Spec-side helpers: normalization of an absolute POSIX path, used only to
STATE what "resolves outside rootPath" means (the code has no counterpart). -/

/-- Split a character list on a separator. -/
def splitChar (sep : Char) : List Char → List (List Char)
  | [] => [[]]
  | c :: cs =>
    match splitChar sep cs with
    | [] => [[]]
    | r :: rs => if c = sep then [] :: r :: rs else (c :: r) :: rs

/-- Resolve `.` and `..` segments of an absolute path (a `..` at the root is
dropped, as POSIX resolution does for absolute paths). -/
def normSegments (segs : List String) : List String :=
  segs.foldl
    (fun st s =>
      if s = "" ∨ s = "." then st
      else if s = ".." then st.dropLast
      else st ++ [s])
    []

/-- Rebuild a path string from segments. -/
def joinSegments : List String → String
  | [] => ""
  | x :: xs => xs.foldl (fun acc s => acc ++ "/" ++ s) x

/-- Normal form of an absolute POSIX path: `"/" ++` the resolved segments. -/
def normalizeAbs (p : String) : String :=
  "/" ++ joinSegments (normSegments ((splitChar '/' p.toList).map String.mk))

/-- Is `p` the root itself or located under `root`? (On normalized paths.) -/
def insideRoot (root p : String) : Bool :=
  decide (p = root) || (root ++ "/").toList.isPrefixOf p.toList

/-- C1: the spec claims `_to_remote_path` normalizes `.`/`..` and rejects any
result resolving outside `rootPath`. The code performs a bare join: with root
`/data`, the front-end path `/../secret` is translated to `/data/../secret`,
which resolves to `/secret`, outside the root, and no rejection occurs. -/
theorem to_remote_path_escapes_root :
    to_remote_path "/data" "/../secret" = "/data/../secret" ∧
    normalizeAbs (to_remote_path "/data" "/../secret") = "/secret" ∧
    insideRoot "/data" (normalizeAbs (to_remote_path "/data" "/../secret")) = false := by
  refine ⟨rfl, rfl, rfl⟩

/- ============================================================================
   Errors (DAVError and raw Python exceptions)
   ============================================================================ -/

/-- A Python exception as observed at the provider boundary: a `DAVError`
carrying an HTTP status, a raw back-end (paramiko/socket) exception, or a
`RuntimeError`. -/
inductive PyErr
  | dav (status : Nat) (msg : String)
  | backend (msg : String)
  | runtime (msg : String)
deriving DecidableEq, Repr

/-- Is the exception a mapped `DAVError` (taxonomy error)? -/
def PyErr.isDav : PyErr → Bool
  | .dav _ _ => true
  | _ => false

/-- The HTTP status of a `DAVError`, if it is one. -/
def PyErr.davStatus : PyErr → Option Nat
  | .dav s _ => some s
  | _ => none

def HTTP_FORBIDDEN : Nat := 403

def HTTP_NOT_FOUND : Nat := 404

/- ============================================================================
   Connection pool as a labelled transition system
   (`SFTPConnectionPool.get_connection`, fine-grained: one event per
   control-flow step that touches the shared pool state)
   ============================================================================ -/

/-- Shared state of `SFTPConnectionPool`: the FIFO ready queue (`self.pool`),
the sessions currently checked out by in-flight operations, the `_closed`
flag, a counter supplying ids for freshly created sessions, and the set of
sessions on which `.close()` has been called. -/
structure PoolSt where
  ready : List Nat
  checkedOut : List Nat
  closed : Bool
  nextId : Nat
  closedSess : List Nat
deriving DecidableEq, Repr

/-- The control-flow paths of `get_connection` that mutate pool state, plus
`close()`. A caller-held session is named by its id. -/
inductive PoolEv
  | pop
  | popEmpty
  | acquireClosed
  | probeFailCreateOk (s : Nat)
  | probeFailCreateFailRetryOk (s : Nat)
  | probeFailCreateFailRetryFail (s : Nat)
  | bodyFailReplaceOk (s : Nat)
  | bodyFailReplaceFail (s : Nat)
  | release (s : Nat)
  | close
deriving DecidableEq, Repr

/-- One step of the pool transition system, mirroring
`SFTPConnectionPool.get_connection` (src/webdav_sftp.py:117-161) and
`close` (163-176):
* `pop`: `self.pool.get(timeout=5)` succeeds — the head session moves to the
  caller.
* `popEmpty`: the queue is empty, `Empty` is raised after the timeout;
  no state change (the `DAVError` raised is modelled in `runGetConnection`).
* `acquireClosed`: entry with `_closed` set; no state change.
* `probeFailCreateOk s`: `sftp.stat('.')` failed on the popped session `s`;
  `s` is closed and a fresh session replaces it in the caller's hand.
* `probeFailCreateFailRetryOk s`: the probe failed, the first
  `_create_connection` raised, the retry in the `except` handler succeeded;
  the fresh session goes straight into the ready queue via `finally` (unless
  the pool is closed) while the operation fails.
* `probeFailCreateFailRetryFail s`: both creation attempts failed; `s` is
  gone and nothing replaces it.
* `bodyFailReplaceOk s` / `bodyFailReplaceFail s`: the `with` body raised;
  `s` is closed and the single replacement attempt succeeds (fresh session to
  the ready queue unless closed) or fails (capacity lost).
* `release s`: the `finally` clause; the session is re-queued only when the
  pool is not closed — otherwise it is dropped WITHOUT being closed.
* `close`: sets `_closed`, drains the ready queue and closes each session. -/
def poolStep (st : PoolSt) : PoolEv → Option PoolSt
  | .pop =>
    if st.closed then none
    else
      match st.ready with
      | [] => none
      | s :: rest => some { st with ready := rest, checkedOut := s :: st.checkedOut }
  | .popEmpty =>
    if st.closed = false ∧ st.ready = [] then some st else none
  | .acquireClosed =>
    if st.closed then some st else none
  | .probeFailCreateOk s =>
    if s ∈ st.checkedOut then
      some { st with checkedOut := st.nextId :: st.checkedOut.erase s,
                     nextId := st.nextId + 1,
                     closedSess := s :: st.closedSess }
    else none
  | .probeFailCreateFailRetryOk s =>
    if s ∈ st.checkedOut then
      some { st with checkedOut := st.checkedOut.erase s,
                     ready := if st.closed then st.ready else st.ready ++ [st.nextId],
                     nextId := st.nextId + 1,
                     closedSess := s :: st.closedSess }
    else none
  | .probeFailCreateFailRetryFail s =>
    if s ∈ st.checkedOut then
      some { st with checkedOut := st.checkedOut.erase s,
                     closedSess := s :: st.closedSess }
    else none
  | .bodyFailReplaceOk s =>
    if s ∈ st.checkedOut then
      some { st with checkedOut := st.checkedOut.erase s,
                     ready := if st.closed then st.ready else st.ready ++ [st.nextId],
                     nextId := st.nextId + 1,
                     closedSess := s :: st.closedSess }
    else none
  | .bodyFailReplaceFail s =>
    if s ∈ st.checkedOut then
      some { st with checkedOut := st.checkedOut.erase s,
                     closedSess := s :: st.closedSess }
    else none
  | .release s =>
    if s ∈ st.checkedOut then
      if st.closed then some { st with checkedOut := st.checkedOut.erase s }
      else some { st with checkedOut := st.checkedOut.erase s, ready := st.ready ++ [s] }
    else none
  | .close =>
    some { st with closed := true, ready := [],
                   closedSess := st.ready ++ st.closedSess }

/-- Run a sequence of pool events. -/
def runPool (st : PoolSt) : List PoolEv → Option PoolSt
  | [] => some st
  | e :: es =>
    match poolStep st e with
    | none => none
    | some st' => runPool st' es

/-- Sessions accounted for by the pool: ready plus checked out. -/
def PoolSt.total (st : PoolSt) : Nat :=
  st.ready.length + st.checkedOut.length

/-- Well-formedness: no session appears twice among ready/checked-out sessions
(in particular no session is held by two callers, and no queued session is
also held), and fresh ids are really fresh. -/
def GoodState (st : PoolSt) : Prop :=
  (st.ready ++ st.checkedOut).Nodup ∧ ∀ i ∈ st.ready ++ st.checkedOut, i < st.nextId

instance (st : PoolSt) : Decidable (GoodState st) := by
  unfold GoodState; infer_instance

/-- Events on which the pool permanently loses capacity (a session is
discarded and its replacement creation fails) or is torn down. -/
def lossyEv : PoolEv → Bool
  | .probeFailCreateFailRetryFail _ => true
  | .bodyFailReplaceFail _ => true
  | .close => true
  | _ => false

/- Helper lemmas about the list surgery the pool transitions perform. -/

lemma mid_nodup (R Y : List Nat) (x : Nat) (hx : x ∉ R ++ Y) (h : (R ++ Y).Nodup) :
    (R ++ x :: Y).Nodup :=
  List.perm_middle.nodup_iff.mpr (List.nodup_cons.mpr ⟨hx, h⟩)

lemma erase_keep_nodup (R C : List Nat) (s : Nat) (h : (R ++ C).Nodup) :
    (R ++ C.erase s).Nodup :=
  h.sublist ((List.erase_sublist s C).append_left R)

lemma fresh_not_mem (R C : List Nat) (N : Nat) (hbd : ∀ i ∈ R ++ C, i < N) :
    N ∉ R ++ C := fun hmem => lt_irrefl N (hbd N hmem)

lemma fresh_not_mem_erase (R C : List Nat) (N s : Nat) (hbd : ∀ i ∈ R ++ C, i < N) :
    N ∉ R ++ C.erase s := by
  intro hmem
  apply fresh_not_mem R C N hbd
  rcases List.mem_append.mp hmem with hr | hce
  · exact List.mem_append.mpr (Or.inl hr)
  · exact List.mem_append.mpr (Or.inr (List.mem_of_mem_erase hce))

lemma bound_mid (R C : List Nat) (N s x : Nat) (hbd : ∀ i ∈ R ++ C, i < N)
    (hx : x < N + 1) : ∀ i ∈ R ++ x :: C.erase s, i < N + 1 := by
  intro i hi
  rcases List.mem_append.mp hi with hr | hc
  · exact Nat.lt_succ_of_lt (hbd i (List.mem_append.mpr (Or.inl hr)))
  · rcases List.mem_cons.mp hc with rfl | hce
    · exact hx
    · exact Nat.lt_succ_of_lt (hbd i (List.mem_append.mpr (Or.inr (List.mem_of_mem_erase hce))))

lemma len_erase_balance (C : List Nat) (s : Nat) (hs : s ∈ C) :
    (C.erase s).length + 1 = C.length := by
  rw [List.length_erase_of_mem hs]
  exact Nat.succ_pred_eq_of_pos (List.length_pos_of_mem hs)

/-- A checked-out session `s` is not in the ready queue. -/
lemma mem_checkedOut_not_ready (R C : List Nat) (s : Nat)
    (hnd : (R ++ C).Nodup) (hs : s ∈ C) : s ∉ R :=
  fun hr => (List.disjoint_of_nodup_append hnd) hr hs

/-- One non-lossy step of a live pool preserves well-formedness and the total
number of accounted-for sessions, and keeps the pool live. -/
lemma poolStep_preserves (st st' : PoolSt) (e : PoolEv)
    (h : poolStep st e = some st') (hg : GoodState st) (hc : st.closed = false)
    (hl : lossyEv e = false) :
    GoodState st' ∧ st'.total = st.total ∧ st'.closed = false := by
  obtain ⟨hnd, hbd⟩ := hg
  cases e with
  | pop =>
    rw [poolStep, hc] at h
    simp only [Bool.false_eq_true, if_false] at h
    cases hr : st.ready with
    | nil => rw [hr] at h; exact absurd h (by simp)
    | cons s rest =>
      rw [hr] at h
      injection h with h; subst h
      rw [hr] at hnd hbd
      refine ⟨⟨?_, ?_⟩, ?_, by simp [hc]⟩
      · exact List.perm_middle.nodup_iff.mpr (by simpa using hnd)
      · intro i hi
        apply hbd
        have := List.perm_middle.mem_iff.mp hi
        simpa using this
      · simp [PoolSt.total, hr]; omega
  | popEmpty =>
    rw [poolStep] at h
    split at h
    · injection h with h; subst h; exact ⟨⟨hnd, hbd⟩, rfl, hc⟩
    · exact absurd h (by simp)
  | acquireClosed =>
    rw [poolStep] at h
    rw [hc] at h
    exact absurd h (by simp)
  | probeFailCreateOk s =>
    rw [poolStep] at h
    split at h
    case isTrue hs =>
      injection h with h; subst h
      refine ⟨⟨?_, ?_⟩, ?_, by simp [hc]⟩
      · exact List.perm_middle.nodup_iff.mpr
          (List.nodup_cons.mpr
            ⟨fresh_not_mem_erase _ _ _ s hbd, erase_keep_nodup _ _ s hnd⟩)
      · exact bound_mid _ _ _ s _ hbd (Nat.lt_succ_self _)
      · simp only [PoolSt.total, List.length_cons]
        have := len_erase_balance st.checkedOut s hs
        omega
    case isFalse => exact absurd h (by simp)
  | probeFailCreateFailRetryOk s =>
    rw [poolStep] at h
    split at h
    case isTrue hs =>
      injection h with h; subst h
      rw [hc] at *
      refine ⟨⟨?_, ?_⟩, ?_, by simp [hc]⟩
      · simp only [Bool.false_eq_true, if_false, List.append_assoc, List.singleton_append]
        exact List.perm_middle.nodup_iff.mpr
          (List.nodup_cons.mpr
            ⟨fresh_not_mem_erase _ _ _ s hbd, erase_keep_nodup _ _ s hnd⟩)
      · simp only [Bool.false_eq_true, if_false, List.append_assoc, List.singleton_append]
        exact bound_mid _ _ _ s _ hbd (Nat.lt_succ_self _)
      · simp only [PoolSt.total, Bool.false_eq_true, if_false, List.length_append,
          List.length_singleton]
        have := len_erase_balance st.checkedOut s hs
        omega
    case isFalse => exact absurd h (by simp)
  | probeFailCreateFailRetryFail s =>
    exact absurd hl (by simp [lossyEv])
  | bodyFailReplaceOk s =>
    rw [poolStep] at h
    split at h
    case isTrue hs =>
      injection h with h; subst h
      rw [hc] at *
      refine ⟨⟨?_, ?_⟩, ?_, by simp [hc]⟩
      · simp only [Bool.false_eq_true, if_false, List.append_assoc, List.singleton_append]
        exact List.perm_middle.nodup_iff.mpr
          (List.nodup_cons.mpr
            ⟨fresh_not_mem_erase _ _ _ s hbd, erase_keep_nodup _ _ s hnd⟩)
      · simp only [Bool.false_eq_true, if_false, List.append_assoc, List.singleton_append]
        exact bound_mid _ _ _ s _ hbd (Nat.lt_succ_self _)
      · simp only [PoolSt.total, Bool.false_eq_true, if_false, List.length_append,
          List.length_singleton]
        have := len_erase_balance st.checkedOut s hs
        omega
    case isFalse => exact absurd h (by simp)
  | bodyFailReplaceFail s =>
    exact absurd hl (by simp [lossyEv])
  | release s =>
    rw [poolStep] at h
    split at h
    case isTrue hs =>
      rw [hc] at h
      simp only [Bool.false_eq_true, if_false] at h
      injection h with h; subst h
      have hsR : s ∉ st.ready := mem_checkedOut_not_ready _ _ s hnd hs
      have hsE : s ∉ st.checkedOut.erase s :=
        fun hmem => ((hnd.of_append_right).mem_erase_iff.mp hmem).1 rfl
      refine ⟨⟨?_, ?_⟩, ?_, by simp [hc]⟩
      · simp only [List.append_assoc, List.singleton_append]
        refine List.perm_middle.nodup_iff.mpr (List.nodup_cons.mpr ⟨?_, ?_⟩)
        · intro hmem
          rcases List.mem_append.mp hmem with hr | hce
          · exact hsR hr
          · exact hsE hce
        · exact erase_keep_nodup _ _ s hnd
      · simp only [List.append_assoc, List.singleton_append]
        intro i hi
        rcases List.mem_append.mp hi with hr | hc'
        · exact hbd i (List.mem_append.mpr (Or.inl hr))
        · rcases List.mem_cons.mp hc' with rfl | hce
          · exact hbd i (List.mem_append.mpr (Or.inr hs))
          · exact hbd i (List.mem_append.mpr (Or.inr (List.mem_of_mem_erase hce)))
      · simp only [PoolSt.total, List.length_append, List.length_singleton]
        have := len_erase_balance st.checkedOut s hs
        omega
    case isFalse => exact absurd h (by simp)
  | close =>
    exact absurd hl (by simp [lossyEv])

/-- C2 (counterexample): with a pool of size 1, an acquire whose liveness
probe fails and whose two replacement-creation attempts both fail leaves the
pool with `0` sessions accounted for: the claimed invariant
`checked out + ready = poolSize` is violated at that instant (0 ≠ 1). -/
theorem pool_count_invariant_fails :
    runPool { ready := [0], checkedOut := [], closed := false, nextId := 1, closedSess := [] }
      [PoolEv.pop, PoolEv.probeFailCreateFailRetryFail 0] =
      some { ready := [], checkedOut := [], closed := false, nextId := 1, closedSess := [0] } ∧
    PoolSt.total { ready := ([] : List Nat), checkedOut := ([] : List Nat), closed := false,
                   nextId := 1, closedSess := [0] } ≠ 1 := by
  exact ⟨rfl, by decide⟩

/-- C2 (amended): along any event sequence of a live pool in which no
session-replacement creation fails and the pool is not closed, the number of
ready plus checked-out sessions is constant (so it stays equal to `poolSize`
from the initial fully-populated pool) and the ready/checked-out sessions
remain pairwise distinct — in particular no session is ever held by two
callers at once. The claim as frozen is false: a failed replacement creation
(and a close during a checkout) permanently lowers the count. -/
theorem pool_count_invariant (st st' : PoolSt) (evs : List PoolEv)
    (h : runPool st evs = some st') (hg : GoodState st) (hc : st.closed = false)
    (hl : ∀ e ∈ evs, lossyEv e = false) :
    GoodState st' ∧ st'.total = st.total ∧ st'.closed = false := by
  induction evs generalizing st with
  | nil =>
    rw [runPool] at h
    injection h with h; subst h
    exact ⟨hg, rfl, hc⟩
  | cons e es ih =>
    rw [runPool] at h
    cases hstep : poolStep st e with
    | none => rw [hstep] at h; exact absurd h (by simp)
    | some st1 =>
      rw [hstep] at h
      have h1 := poolStep_preserves st st1 e hstep hg hc (hl e (List.mem_cons_self e es))
      have h2 := ih st1 h h1.1 h1.2.2 (fun e' he' => hl e' (List.mem_cons_of_mem e he'))
      exact ⟨h2.1, h2.2.1.trans h1.2.1, h2.2.2⟩

/-- Witness for C2 (amended): a pool of size 2 runs a pop, a dead-session
replacement, and a release; the invariant holds at the end. -/
theorem pool_count_invariant_witness :
    GoodState { ready := [1, 2], checkedOut := ([] : List Nat), closed := false,
                nextId := 3, closedSess := [0] } ∧
    PoolSt.total { ready := [1, 2], checkedOut := ([] : List Nat), closed := false,
                   nextId := 3, closedSess := [0] } =
      PoolSt.total { ready := [0, 1], checkedOut := ([] : List Nat), closed := false,
                     nextId := 2, closedSess := [] } ∧
    ({ ready := [1, 2], checkedOut := ([] : List Nat), closed := false,
       nextId := 3, closedSess := [0] } : PoolSt).closed = false :=
  pool_count_invariant
    { ready := [0, 1], checkedOut := [], closed := false, nextId := 2, closedSess := [] }
    { ready := [1, 2], checkedOut := [], closed := false, nextId := 3, closedSess := [0] }
    [PoolEv.pop, PoolEv.probeFailCreateOk 0, PoolEv.release 2]
    rfl (by decide) rfl (by decide)

/- ============================================================================
   `get_connection` at operation granularity: one whole
   acquire / probe / body / replace / release cycle, driven by an oracle
   fixing the outcome of each fallible step
   ============================================================================ -/

/-- Outcomes of the fallible steps inside one `get_connection` use:
whether the liveness probe `sftp.stat('.')` succeeds, whether the
`_create_connection()` on the probe-failure path (line 137) raises (and with
what message), whether the `_create_connection()` inside the generic
`except` handler (line 153) raises, whether the `with`-body raises, and
whether `self._closed` has been set by the time the `finally` clause runs. -/
structure GcOracle where
  probeOk : Bool
  create1Fails : Bool
  create1Err : String
  handlerCreateFails : Bool
  bodyErr : Option PyErr
  closedAtRelease : Bool
deriving DecidableEq, Repr

/-- `finally:` — `if sftp and not self._closed: self.pool.put(sftp)`. -/
def putBack (st : PoolSt) (closedAtRelease : Bool) (s : Nat) : PoolSt :=
  if closedAtRelease then st else { st with ready := st.ready ++ [s] }

/-- One full use of `SFTPConnectionPool.get_connection`
(src/webdav_sftp.py:117-161), returning what the caller observes (the session
the body ran with, or the exception that reached it) together with the pool
state afterwards. Checked-out bookkeeping is internal to the call, so
`checkedOut` is left untouched. -/
def runGetConnection (st : PoolSt) (o : GcOracle) : Except PyErr Nat × PoolSt :=
  if st.closed then
    (.error (.runtime "Connection Pool wurde bereits geschlossen"), st)
  else
    match st.ready with
    | [] => (.error (.dav HTTP_FORBIDDEN "Server überlastet"), st)
    | s :: rest =>
      let st0 := { st with ready := rest }
      if o.probeOk then
        match o.bodyErr with
        | none => (.ok s, putBack st0 o.closedAtRelease s)
        | some e =>
          let st1 := { st0 with closedSess := s :: st0.closedSess }
          if o.handlerCreateFails then (.error e, st1)
          else
            let st2 := { st1 with nextId := st1.nextId + 1 }
            (.error e, putBack st2 o.closedAtRelease st1.nextId)
      else
        let st1 := { st0 with closedSess := s :: st0.closedSess }
        if o.create1Fails then
          let e := PyErr.backend o.create1Err
          if o.handlerCreateFails then (.error e, st1)
          else
            let st2 := { st1 with nextId := st1.nextId + 1 }
            (.error e, putBack st2 o.closedAtRelease st1.nextId)
        else
          let n := st1.nextId
          let st2 := { st1 with nextId := n + 1 }
          match o.bodyErr with
          | none => (.ok n, putBack st2 o.closedAtRelease n)
          | some e =>
            let st3 := { st2 with closedSess := n :: st2.closedSess }
            if o.handlerCreateFails then (.error e, st3)
            else
              let st4 := { st3 with nextId := st3.nextId + 1 }
              (.error e, putBack st4 o.closedAtRelease st3.nextId)

/-- C3 (counterexample): a dead session whose replacement creation fails (in
both attempts) surfaces the RAW back-end exception to the caller, not a
mapped `DAVError` — there is no `BackendUnavailable` translation anywhere in
the pool. -/
theorem replace_failure_raw_error :
    runGetConnection
        { ready := [7], checkedOut := [], closed := false, nextId := 10, closedSess := [] }
        { probeOk := false, create1Fails := true, create1Err := "connect failed",
          handlerCreateFails := true, bodyErr := none, closedAtRelease := false } =
      (.error (.backend "connect failed"),
       { ready := [], checkedOut := [], closed := false, nextId := 10, closedSess := [7] }) ∧
    PyErr.isDav (.backend "connect failed") = false := by
  exact ⟨rfl, rfl⟩

/-- C3 (amended): when the liveness probe fails, the session is discarded and
a replacement is created and yielded on success; when the replacement
creation raises, that raw exception is what reaches the caller (no
`BackendUnavailable` mapping), after a second creation attempt in the
`except` handler whose only effect is to refill the ready queue when it
succeeds — when it also fails, the pool permanently loses the session. -/
theorem probe_fail_replacement (st : PoolSt) (s : Nat) (rest : List Nat) (o : GcOracle)
    (hready : st.ready = s :: rest) (hclosed : st.closed = false)
    (hprobe : o.probeOk = false) (hrel : o.closedAtRelease = false) :
    (o.create1Fails = false → o.bodyErr = none →
      runGetConnection st o =
        (.ok st.nextId,
         { st with ready := rest ++ [st.nextId], nextId := st.nextId + 1,
                   closedSess := s :: st.closedSess })) ∧
    (o.create1Fails = true →
      (runGetConnection st o).1 = .error (.backend o.create1Err) ∧
      PyErr.isDav (.backend o.create1Err) = false ∧
      (o.handlerCreateFails = false →
        (runGetConnection st o).2 =
          { st with ready := rest ++ [st.nextId], nextId := st.nextId + 1,
                    closedSess := s :: st.closedSess }) ∧
      (o.handlerCreateFails = true →
        (runGetConnection st o).2 =
          { st with ready := rest, closedSess := s :: st.closedSess })) := by
  constructor
  · intro h1 h2
    simp [runGetConnection, hready, hclosed, hprobe, h1, h2, putBack, hrel]
  · intro h1
    refine ⟨?_, rfl, ?_, ?_⟩
    · by_cases h2 : o.handlerCreateFails = true <;>
        simp [runGetConnection, hready, hclosed, hprobe, h1, h2, putBack, hrel]
    · intro h2
      simp [runGetConnection, hready, hclosed, hprobe, h1, h2, putBack, hrel]
    · intro h2
      simp [runGetConnection, hready, hclosed, hprobe, h1, h2, putBack, hrel]

/-- Witness for C3 (amended), at a concrete pool state and oracle: the probe
fails, the replacement succeeds and is yielded to the caller. -/
theorem probe_fail_replacement_witness :
    runGetConnection
        { ready := [4, 5], checkedOut := [], closed := false, nextId := 6, closedSess := [] }
        { probeOk := false, create1Fails := false, create1Err := "",
          handlerCreateFails := false, bodyErr := none, closedAtRelease := false } =
      (.ok 6, { ready := [5, 6], checkedOut := [], closed := false, nextId := 7,
                closedSess := [4] }) :=
  (probe_fail_replacement
    { ready := [4, 5], checkedOut := [], closed := false, nextId := 6, closedSess := [] }
    4 [5]
    { probeOk := false, create1Fails := false, create1Err := "",
      handlerCreateFails := false, bodyErr := none, closedAtRelease := false }
    rfl rfl rfl rfl).1 rfl rfl

/-- C4 (counterexample): the pool is closed while session 5 is checked out.
At release the `finally` clause drops the session: it is neither returned to
the ready queue nor closed (`closedSess` stays empty), refuting "the session
is closed instead". -/
theorem release_after_close_drops_session :
    runGetConnection
        { ready := [5], checkedOut := [], closed := false, nextId := 9, closedSess := [] }
        { probeOk := true, create1Fails := false, create1Err := "",
          handlerCreateFails := false, bodyErr := none, closedAtRelease := true } =
      (.ok 5, { ready := [], checkedOut := [], closed := false, nextId := 9,
                closedSess := [] }) := by
  exact rfl

/-- C4 (amended): at release, a session is returned to the ready set when the
pool has not been closed; when the pool has been closed in the meantime the
session is simply dropped — not returned AND not closed (the `finally` clause
never calls `close()` on it). -/
theorem release_behavior (st : PoolSt) (s : Nat) (rest : List Nat) (o : GcOracle)
    (hready : st.ready = s :: rest) (hclosed : st.closed = false)
    (hprobe : o.probeOk = true) (hbody : o.bodyErr = none) :
    (o.closedAtRelease = false →
      runGetConnection st o = (.ok s, { st with ready := rest ++ [s] })) ∧
    (o.closedAtRelease = true →
      runGetConnection st o = (.ok s, { st with ready := rest }) ∧
      (st.closedSess = [] → s ∉ ({ st with ready := rest } : PoolSt).closedSess)) := by
  constructor
  · intro h1
    simp [runGetConnection, hready, hclosed, hprobe, hbody, putBack, h1]
  · intro h1
    constructor
    · simp [runGetConnection, hready, hclosed, hprobe, hbody, putBack, h1]
    · intro h2
      simp [h2]

/-- Witness for C4 (amended): a live pool returns the session to the queue. -/
theorem release_behavior_witness :
    runGetConnection
        { ready := [3, 4], checkedOut := [], closed := false, nextId := 5, closedSess := [] }
        { probeOk := true, create1Fails := false, create1Err := "",
          handlerCreateFails := false, bodyErr := none, closedAtRelease := false } =
      (.ok 3, { ready := [4, 3], checkedOut := [], closed := false, nextId := 5,
                closedSess := [] }) :=
  (release_behavior
    { ready := [3, 4], checkedOut := [], closed := false, nextId := 5, closedSess := [] }
    3 [4]
    { probeOk := true, create1Fails := false, create1Err := "",
      handlerCreateFails := false, bodyErr := none, closedAtRelease := false }
    rfl rfl rfl rfl).1 rfl

/-- C5 (counterexample): pool exhausted (pool of size 2 with both sessions
checked out — the ready queue is empty). The acquire fails with
`DAVError(HTTP_FORBIDDEN, "Server überlastet")`, whose status is the very
same `HTTP_FORBIDDEN` (403) the provider uses for its `AccessDenied`-class
mappings (`get_resource_inst` maps an `IOError` to `DAVError(HTTP_FORBIDDEN)`
at src/webdav_sftp.py:272): the overload signal is NOT distinguishable from
the `AccessDenied` class at the error-taxonomy level. -/
theorem pool_exhausted_same_status_as_access_denied :
    (runGetConnection
        { ready := [], checkedOut := [1, 2], closed := false, nextId := 3, closedSess := [] }
        { probeOk := true, create1Fails := false, create1Err := "",
          handlerCreateFails := false, bodyErr := none, closedAtRelease := false }).1 =
      .error (.dav HTTP_FORBIDDEN "Server überlastet") ∧
    PyErr.davStatus (.dav HTTP_FORBIDDEN "Server überlastet") =
      PyErr.davStatus (.dav HTTP_FORBIDDEN "some io failure") := by
  exact ⟨rfl, rfl⟩

/-- C5 (amended): with every session checked out (empty ready queue) and the
pool live, `get_connection` blocks for the bounded `timeout=5` wait and then
always fails — it never yields a session — with
`DAVError(HTTP_FORBIDDEN, "Server überlastet")`, a mapped overload error that
however shares its status code with the `AccessDenied` class instead of being
a distinct `PoolExhausted` taxon; the pool state is unchanged. -/
theorem acquire_exhausted (st : PoolSt) (o : GcOracle)
    (h1 : st.ready = []) (h2 : st.closed = false) :
    runGetConnection st o = (.error (.dav HTTP_FORBIDDEN "Server überlastet"), st) := by
  simp [runGetConnection, h1, h2]

/-- Witness for C5 (amended). -/
theorem acquire_exhausted_witness :
    runGetConnection
        { ready := [], checkedOut := [8, 9], closed := false, nextId := 10, closedSess := [] }
        { probeOk := false, create1Fails := true, create1Err := "x",
          handlerCreateFails := true, bodyErr := some (.backend "y"),
          closedAtRelease := false } =
      (.error (.dav HTTP_FORBIDDEN "Server überlastet"),
       { ready := [], checkedOut := [8, 9], closed := false, nextId := 10,
         closedSess := [] }) :=
  acquire_exhausted
    { ready := [], checkedOut := [8, 9], closed := false, nextId := 10, closedSess := [] }
    { probeOk := false, create1Fails := true, create1Err := "x",
      handlerCreateFails := true, bodyErr := some (.backend "y"),
      closedAtRelease := false }
    rfl rfl

/- ============================================================================
   SFTP attributes, DAV resources and `get_resource_inst`
   ============================================================================ -/

/-- The stat attributes the provider consumes (`st_mode`, `st_size`,
`st_mtime`). -/
structure Attr where
  st_mode : Nat
  st_size : Nat
  st_mtime : Nat
deriving DecidableEq, Repr

/-- Outcome of `sftp.stat(remote_path)` as the provider distinguishes it:
success, `FileNotFoundError`, or another `IOError`. -/
inductive StatResult
  | ok (a : Attr)
  | fileNotFound
  | ioError (msg : String)
deriving DecidableEq, Repr

/-- `stat.S_ISDIR`: the file-type bits (`S_IFMT = 0o170000`) equal
`S_IFDIR = 0o040000`. -/
def S_ISDIR (m : Nat) : Bool := m &&& 61440 == 16384

/-- A DAV resource instance: `SFTPCollection` or `SFTPNonCollection`. -/
inductive DavResource
  | collection (path : String)
  | nonCollection (path : String) (attr : Attr)
deriving DecidableEq, Repr

/-- Python `s.rstrip('/')`. -/
def rstripSlashes (s : String) : String :=
  String.mk ((s.toList.reverse.dropWhile (fun c => c = '/')).reverse)

/-- `wsgidav.util.join_uri(a, b)`: append `b` after stripping `a`'s trailing
slashes (identity when `b` is empty). -/
def join_uri (a b : String) : String :=
  if b = "" then a else rstripSlashes a ++ "/" ++ b

/-- `posixpath.basename(p)`: everything after the last `'/'`. -/
def posixBasename (p : String) : String :=
  String.mk ((p.toList.reverse.takeWhile (fun c => c ≠ '/')).reverse)

/-- `posixpath.dirname(p)`: everything before the last `'/'`, with trailing
slashes stripped unless the head is all slashes. -/
def posixDirname (p : String) : String :=
  let cs := p.toList
  let base := (cs.reverse.takeWhile (fun c => c ≠ '/')).reverse
  let head := cs.take (cs.length - base.length)
  if head ≠ [] ∧ head.any (fun c => c ≠ '/') then
    String.mk ((head.reverse.dropWhile (fun c => c = '/')).reverse)
  else String.mk head

/-- `SFTPProvider._sftp_attr_to_dav_resource`: classify by mode bits. -/
def sftp_attr_to_dav_resource (dav_path : String) (attr : Attr) (name : String) :
    DavResource :=
  let resource_dav_path := join_uri dav_path name
  if S_ISDIR attr.st_mode then .collection resource_dav_path
  else .nonCollection resource_dav_path attr

/-- `SFTPProvider.get_resource_inst` (src/webdav_sftp.py:256-282), with the
outcome of the back-end stat supplied as an oracle on remote paths:
`FileNotFoundError` ⇒ `None`; any other `IOError` ⇒
`DAVError(HTTP_FORBIDDEN)`; on success the root maps to a collection and any
other path is classified from the mode bits. -/
def get_resource_inst (root : String) (statf : String → StatResult) (path : String) :
    Except PyErr (Option DavResource) :=
  let remote_path := to_remote_path root path
  match statf remote_path with
  | .fileNotFound => .ok none
  | .ioError m => .error (.dav HTTP_FORBIDDEN m)
  | .ok attr =>
    if path = "/" then .ok (some (.collection path))
    else
      .ok (some (sftp_attr_to_dav_resource (posixDirname path) attr (posixBasename path)))

/-- C6: a path whose back-end stat raises `FileNotFoundError` resolves to
absent (`None`) without an error, and a stat failing with any other
`IOError` raises the `AccessDenied`-class error
`DAVError(HTTP_FORBIDDEN)`. -/
theorem get_resource_inst_absent_or_denied (root path : String)
    (statf : String → StatResult) :
    (statf (to_remote_path root path) = .fileNotFound →
      get_resource_inst root statf path = .ok none) ∧
    (∀ m, statf (to_remote_path root path) = .ioError m →
      get_resource_inst root statf path = .error (.dav HTTP_FORBIDDEN m)) := by
  constructor
  · intro h
    simp [get_resource_inst, h]
  · intro m h
    simp [get_resource_inst, h]

/-- Witness for C6: a concrete absent path yields `None`, a concrete failing
stat yields `DAVError(403)`. -/
theorem get_resource_inst_absent_or_denied_witness :
    get_resource_inst "/data" (fun _ => .fileNotFound) "/missing" = .ok none ∧
    get_resource_inst "/data" (fun _ => .ioError "Permission denied") "/locked" =
      .error (.dav HTTP_FORBIDDEN "Permission denied") :=
  ⟨(get_resource_inst_absent_or_denied "/data" "/missing" (fun _ => .fileNotFound)).1 rfl,
   (get_resource_inst_absent_or_denied "/data" "/locked"
      (fun _ => .ioError "Permission denied")).2 "Permission denied" rfl⟩

/- ============================================================================
   Remote filesystem state: a finite map from remote path to node
   ============================================================================ -/

/-- A node at the back end: a regular file with its byte content and mode, or
a directory with its mode. -/
inductive RNode
  | file (data : List Nat) (mode : Nat)
  | dir (mode : Nat)
deriving DecidableEq, Repr

/-- The remote filesystem as an association list from absolute remote path to
node (first binding wins). -/
abbrev RFS := List (String × RNode)

/-- `sftp.stat(p)` against the state: the node at `p`, if any. -/
def fsStat : RFS → String → Option RNode
  | [], _ => none
  | e :: es, p => if e.1 = p then some e.2 else fsStat es p

/-- Store a node at `p` (create or overwrite), as `sftp.open(p,'wb')` /
`mkdir` do. -/
def fsSet : RFS → String → RNode → RFS
  | [], p, n => [(p, n)]
  | e :: es, p, n => if e.1 = p then (p, n) :: es else e :: fsSet es p n

/-- `sftp.remove(p)`: drop the binding(s) at `p`. -/
def fsRemoveAll : RFS → String → RFS
  | [], _ => []
  | e :: es, p => if e.1 = p then fsRemoveAll es p else e :: fsRemoveAll es p

/-- Is `q` strictly below directory `d` (i.e. `d ++ "/"` is a prefix of
`q`)? -/
def isUnderDir (d q : String) : Bool :=
  (d ++ "/").toList.isPrefixOf q.toList

/-- Effect of `SFTPProvider._sftp_delete_recursive` on the path map: the
directory and everything below it disappears. (The order in which the
recursion removes entries is verified separately on the tree-trace model
below.) -/
def sftp_delete_recursive_fs : RFS → String → RFS
  | [], _ => []
  | e :: es, p =>
    if e.1 = p ∨ isUnderDir p e.1 = true then sftp_delete_recursive_fs es p
    else e :: sftp_delete_recursive_fs es p

/-- `SFTPProvider.delete` (src/webdav_sftp.py:318-338): stat the translated
path; missing ⇒ `DAVError(HTTP_NOT_FOUND)`; a directory is deleted
recursively, a file with a single remove. -/
def delete (root : String) (fs : RFS) (path : String) : Except PyErr RFS :=
  let remote_path := to_remote_path root path
  match fsStat fs remote_path with
  | none => .error (.dav HTTP_NOT_FOUND ("Path not found: " ++ path))
  | some (.dir _) => .ok (sftp_delete_recursive_fs fs remote_path)
  | some (.file _ _) => .ok (fsRemoveAll fs remote_path)

/- ============================================================================
   Write transaction: `begin_write` / `end_write` / `get_content_stream`
   ============================================================================ -/

/-- The in-memory `BytesIO` buffer created by `begin_write`, with the
metadata the code stashes on it (`_dav_path`, `_remote_path`). -/
structure PendingUpload where
  dav_path : String
  remote_path : String
  buf : List Nat
deriving DecidableEq, Repr

/-- `SFTPProvider.begin_write` (426-440): allocate an empty in-memory buffer
bound to the translated path; no back-end call. -/
def begin_write (root path : String) : PendingUpload :=
  { dav_path := path, remote_path := to_remote_path root path, buf := [] }

/-- The front end writing bytes into the returned buffer. -/
def streamWrite (pu : PendingUpload) (data : List Nat) : PendingUpload :=
  { pu with buf := pu.buf ++ data }

/-- `SFTPProvider.end_write` (442-473): read the buffered bytes back and
upload them with `sftp.open(remote_path, "wb")` (a fresh regular file,
default mode `0o100644` = 33188). -/
def end_write (fs : RFS) (pu : PendingUpload) : RFS :=
  fsSet fs pu.remote_path (.file pu.buf 33188)

/-- `SFTPProvider.get_content_stream` (403-424): only `"rb"` is supported;
the remote file is fully read into memory; missing ⇒
`DAVError(HTTP_NOT_FOUND)`; opening a directory fails at the back end and
surfaces as `DAVError(HTTP_FORBIDDEN)`. -/
def get_content_stream (root : String) (fs : RFS) (path : String) (mode : String) :
    Except PyErr (List Nat) :=
  if mode ≠ "rb" then .error (.dav 501 "Only rb mode supported")
  else
    let remote_path := to_remote_path root path
    match fsStat fs remote_path with
    | none => .error (.dav HTTP_NOT_FOUND ("File not found: " ++ path))
    | some (.file data _) => .ok data
    | some (.dir _) => .error (.dav HTTP_FORBIDDEN "is a directory")

/-- Looking up the path just stored finds the stored node. -/
lemma fsStat_fsSet_self (fs : RFS) (p : String) (n : RNode) :
    fsStat (fsSet fs p n) p = some n := by
  induction fs with
  | nil => simp [fsSet, fsStat]
  | cons e es ih =>
    by_cases h : e.1 = p
    · simp [fsSet, h, fsStat]
    · simp [fsSet, h, fsStat, ih]

/-- C7: writing any byte sequence `B` (including the empty one) to any path
through `begin_write`/`end_write` and reading it back with
`get_content_stream` yields exactly `B`, over any starting filesystem. -/
theorem write_read_roundtrip (root path : String) (fs : RFS) (B : List Nat) :
    get_content_stream root (end_write fs (streamWrite (begin_write root path) B)) path "rb" =
      .ok B := by
  simp [get_content_stream, end_write, streamWrite, begin_write, fsStat_fsSet_self]

/- ============================================================================
   `copy` and `move`
   ============================================================================ -/

/-- Drop the first `n` characters of a string. -/
def strDrop (s : String) (n : Nat) : String := String.mk (s.toList.drop n)

/-- Effect of `SFTPProvider._sftp_copy_recursive` on the path map: every
entry at or below `remote_src_dir` is duplicated below `remote_dest_dir`
(bytes and permission bits); new bindings shadow old ones. -/
def sftp_copy_recursive_fs (fs : RFS) (rsrc rdest : String) : RFS :=
  (fs.filterMap (fun e =>
    if e.1 = rsrc then some (rdest, e.2)
    else if isUnderDir rsrc e.1 then
      some (rdest ++ strDrop e.1 rsrc.toList.length, e.2)
    else none)) ++ fs

/-- Effect of `sftp.rename(rsrc, rdest)` on the path map: the entry at
`rsrc` (and, for a directory, everything below it) moves to `rdest`. -/
def renameFS (fs : RFS) (rsrc rdest : String) : RFS :=
  fs.map (fun e =>
    if e.1 = rsrc then (rdest, e.2)
    else if isUnderDir rsrc e.1 then (rdest ++ strDrop e.1 rsrc.toList.length, e.2)
    else e)

/-- Source phase of `SFTPProvider.copy` (386-401): stat the source; missing ⇒
`DAVError(HTTP_NOT_FOUND)`; a directory with `depth ≠ "infinity"` raises
`DAVError(400)` — which the function's own `except Exception` then re-wraps
into `DAVError(HTTP_FORBIDDEN, str(e))`; otherwise recursive copy, or for a
leaf a byte copy followed by a `chmod` to the source's mode. -/
def copySrcPhase (fs : RFS) (rsrc rdest src_path depth : String) :
    Except PyErr Unit × RFS :=
  match fsStat fs rsrc with
  | none => (.error (.dav HTTP_NOT_FOUND ("Source not found: " ++ src_path)), fs)
  | some (.dir _) =>
    if depth ≠ "infinity" then
      (.error (.dav HTTP_FORBIDDEN "COPY on collection requires depth='infinity'"), fs)
    else (.ok (), sftp_copy_recursive_fs fs rsrc rdest)
  | some (.file data m) => (.ok (), fsSet fs rdest (.file data m))

/-- `SFTPProvider.copy` (366-401): validate `depth`; if the translated
destination exists and `overwrite` is false raise `DAVError(412)`, if it
exists and `overwrite` is true delete it first; then operate on the
source. -/
def copy (root : String) (fs : RFS) (src_path dest_path : String)
    (overwrite : Bool) (depth : String) : Except PyErr Unit × RFS :=
  if depth ≠ "0" ∧ depth ≠ "infinity" then
    (.error (.dav 501 "Only depth '0' and 'infinity' supported"), fs)
  else
    let rsrc := to_remote_path root src_path
    let rdest := to_remote_path root dest_path
    match fsStat fs rdest with
    | some _ =>
      if overwrite = false then
        (.error (.dav 412 "Destination exists and overwrite=False"), fs)
      else
        match delete root fs dest_path with
        | .error e => (.error e, fs)
        | .ok fs1 => copySrcPhase fs1 rsrc rdest src_path depth
    | none => copySrcPhase fs rsrc rdest src_path depth

/-- Rename phase of `SFTPProvider.move` (358-364): `sftp.rename`; a missing
source raises `FileNotFoundError`, mapped to `DAVError(HTTP_NOT_FOUND)`. -/
def moveRenamePhase (fs : RFS) (rsrc rdest src_path : String) :
    Except PyErr Unit × RFS :=
  match fsStat fs rsrc with
  | none => (.error (.dav HTTP_NOT_FOUND ("Source not found: " ++ src_path)), fs)
  | some _ => (.ok (), renameFS fs rsrc rdest)

/-- `SFTPProvider.move` (340-364): if the translated destination exists and
`overwrite` is false raise `DAVError(412)`; if it exists and `overwrite` is
true delete it first; then rename the source. -/
def move (root : String) (fs : RFS) (src_path dest_path : String) (overwrite : Bool) :
    Except PyErr Unit × RFS :=
  let rsrc := to_remote_path root src_path
  let rdest := to_remote_path root dest_path
  match fsStat fs rdest with
  | some _ =>
    if overwrite = false then
      (.error (.dav 412 "Destination exists and overwrite=False"), fs)
    else
      match delete root fs dest_path with
      | .error e => (.error e, fs)
      | .ok fs1 => moveRenamePhase fs1 rsrc rdest src_path
  | none => moveRenamePhase fs rsrc rdest src_path

/-- C8: `copy(src, dest, overwrite := false, depth := "0")` on an existing
destination fails with `DAVError(412)` (`PreconditionFailed`) and returns
the filesystem state completely unchanged — in particular `dest` is
byte-for-byte unchanged. -/
theorem copy_existing_dest_no_overwrite (root : String) (fs : RFS)
    (src dest : String) (n : RNode)
    (h : fsStat fs (to_remote_path root dest) = some n) :
    copy root fs src dest false "0" =
      (.error (.dav 412 "Destination exists and overwrite=False"), fs) := by
  simp [copy, h]

/-- Witness for C8 at a concrete filesystem. -/
theorem copy_existing_dest_no_overwrite_witness :
    copy "/data" [("/data/a", RNode.file [1, 2] 33188), ("/data/b", RNode.file [3] 33188)]
      "/a" "/b" false "0" =
      (.error (.dav 412 "Destination exists and overwrite=False"),
       [("/data/a", RNode.file [1, 2] 33188), ("/data/b", RNode.file [3] 33188)]) :=
  copy_existing_dest_no_overwrite "/data"
    [("/data/a", RNode.file [1, 2] 33188), ("/data/b", RNode.file [3] 33188)]
    "/a" "/b" (RNode.file [3] 33188) rfl

/- Lemmas about the deletion effects, for the C10 theorem. -/

lemma fsStat_cons_none {e : String × RNode} {es : RFS} {q : String}
    (h : fsStat (e :: es) q = none) : e.1 ≠ q ∧ fsStat es q = none := by
  by_cases hq : e.1 = q
  · rw [fsStat, if_pos hq] at h; exact absurd h (by simp)
  · rw [fsStat, if_neg hq] at h; exact ⟨hq, h⟩

lemma fsStat_fsRemoveAll_self (fs : RFS) (p : String) :
    fsStat (fsRemoveAll fs p) p = none := by
  induction fs with
  | nil => rfl
  | cons e es ih =>
    by_cases h : e.1 = p
    · simp [fsRemoveAll, h, ih]
    · simp [fsRemoveAll, h, fsStat, ih]

lemma fsStat_fsRemoveAll_none (fs : RFS) (p q : String) (h : fsStat fs q = none) :
    fsStat (fsRemoveAll fs p) q = none := by
  induction fs with
  | nil => rfl
  | cons e es ih =>
    obtain ⟨hne, hrest⟩ := fsStat_cons_none h
    by_cases hp : e.1 = p
    · simp [fsRemoveAll, hp, ih hrest]
    · simp [fsRemoveAll, hp, fsStat, hne, ih hrest]

lemma fsStat_delRec_self (fs : RFS) (p : String) :
    fsStat (sftp_delete_recursive_fs fs p) p = none := by
  induction fs with
  | nil => rfl
  | cons e es ih =>
    by_cases h : e.1 = p ∨ isUnderDir p e.1 = true
    · simp [sftp_delete_recursive_fs, h, ih]
    · obtain ⟨hne, hund⟩ := not_or.mp h
      simp [sftp_delete_recursive_fs, hne, hund, fsStat, ih]

lemma fsStat_delRec_none (fs : RFS) (p q : String) (h : fsStat fs q = none) :
    fsStat (sftp_delete_recursive_fs fs p) q = none := by
  induction fs with
  | nil => rfl
  | cons e es ih =>
    obtain ⟨hne, hrest⟩ := fsStat_cons_none h
    by_cases hp : e.1 = p ∨ isUnderDir p e.1 = true
    · simp [sftp_delete_recursive_fs, hp, ih hrest]
    · obtain ⟨hp1, hp2⟩ := not_or.mp hp
      simp [sftp_delete_recursive_fs, hp1, hp2, fsStat, hne, ih hrest]

/-- `delete` on an existing destination succeeds, removes the destination,
and keeps absent paths absent. -/
lemma delete_existing (root : String) (fs : RFS) (dest q : String) (n : RNode)
    (hdest : fsStat fs (to_remote_path root dest) = some n)
    (hq : fsStat fs q = none) :
    ∃ fs1, delete root fs dest = .ok fs1 ∧
      fsStat fs1 (to_remote_path root dest) = none ∧ fsStat fs1 q = none := by
  cases n with
  | dir m =>
    refine ⟨sftp_delete_recursive_fs fs (to_remote_path root dest), ?_, ?_, ?_⟩
    · simp [delete, hdest]
    · exact fsStat_delRec_self fs _
    · exact fsStat_delRec_none fs _ q hq
  | file d m =>
    refine ⟨fsRemoveAll fs (to_remote_path root dest), ?_, ?_, ?_⟩
    · simp [delete, hdest]
    · exact fsStat_fsRemoveAll_self fs _
    · exact fsStat_fsRemoveAll_none fs _ q hq

/-- C10: for `move(src, dest, overwrite := true)` and
`copy(src, dest, overwrite := true, depth)` with an existing destination and
an absent source, the destination is deleted before the source is examined:
the call fails with `DAVError(HTTP_NOT_FOUND)` for the missing source, the
destination is gone from the resulting state, and the back-end state is NOT
left unchanged by the failed operation. -/
theorem overwrite_deletes_dest_before_source_check (root : String) (fs : RFS)
    (src dest depth : String) (n : RNode)
    (hdest : fsStat fs (to_remote_path root dest) = some n)
    (hsrc : fsStat fs (to_remote_path root src) = none)
    (hdepth : depth = "0" ∨ depth = "infinity") :
    (move root fs src dest true).1 =
      .error (.dav HTTP_NOT_FOUND ("Source not found: " ++ src)) ∧
    fsStat (move root fs src dest true).2 (to_remote_path root dest) = none ∧
    (move root fs src dest true).2 ≠ fs ∧
    (copy root fs src dest true depth).1 =
      .error (.dav HTTP_NOT_FOUND ("Source not found: " ++ src)) ∧
    fsStat (copy root fs src dest true depth).2 (to_remote_path root dest) = none ∧
    (copy root fs src dest true depth).2 ≠ fs := by
  obtain ⟨fs1, hdel, hgone, hsrc1⟩ :=
    delete_existing root fs dest (to_remote_path root src) n hdest hsrc
  have hdep : ¬(depth ≠ "0" ∧ depth ≠ "infinity") := by
    rcases hdepth with h | h <;> simp [h]
  have hmove : move root fs src dest true =
      (.error (.dav HTTP_NOT_FOUND ("Source not found: " ++ src)), fs1) := by
    simp [move, hdest, hdel, moveRenamePhase, hsrc1]
  have hcopy : copy root fs src dest true depth =
      (.error (.dav HTTP_NOT_FOUND ("Source not found: " ++ src)), fs1) := by
    simp [copy, hdep, hdest, hdel, copySrcPhase, hsrc1]
  have hne : fs1 ≠ fs := by
    intro heq
    rw [heq, hdest] at hgone
    exact absurd hgone (by simp)
  rw [hmove, hcopy]
  exact ⟨rfl, hgone, hne, rfl, hgone, hne⟩

/-- Witness for C10: a file destination exists, the source is absent; both
`move` and `copy` fail with 404 with the destination already removed. -/
theorem overwrite_deletes_dest_before_source_check_witness :
    (move "/data" [("/data/b", RNode.file [7] 33188)] "/a" "/b" true).1 =
      .error (.dav HTTP_NOT_FOUND "Source not found: /a") ∧
    fsStat (move "/data" [("/data/b", RNode.file [7] 33188)] "/a" "/b" true).2
      (to_remote_path "/data" "/b") = none ∧
    (move "/data" [("/data/b", RNode.file [7] 33188)] "/a" "/b" true).2 ≠
      [("/data/b", RNode.file [7] 33188)] ∧
    (copy "/data" [("/data/b", RNode.file [7] 33188)] "/a" "/b" true "infinity").1 =
      .error (.dav HTTP_NOT_FOUND "Source not found: /a") ∧
    fsStat (copy "/data" [("/data/b", RNode.file [7] 33188)] "/a" "/b" true "infinity").2
      (to_remote_path "/data" "/b") = none ∧
    (copy "/data" [("/data/b", RNode.file [7] 33188)] "/a" "/b" true "infinity").2 ≠
      [("/data/b", RNode.file [7] 33188)] :=
  overwrite_deletes_dest_before_source_check "/data"
    [("/data/b", RNode.file [7] 33188)] "/a" "/b" "infinity" (RNode.file [7] 33188)
    rfl rfl (Or.inr rfl)

/- ============================================================================
   `_sftp_delete_recursive` as a trace of back-end calls over a directory tree
   ============================================================================ -/

/-- A directory tree as `listdir_attr` exposes it: each child is a file or a
subdirectory with its own children (the `.`/`..` pseudo-entries are already
skipped by the code). -/
inductive FTree
  | file (name : String)
  | dir (name : String) (children : List FTree)
deriving Repr

/-- The back-end calls `_sftp_delete_recursive` issues. -/
inductive DelOp
  | remove (p : String)
  | rmdir (p : String)
deriving DecidableEq, Repr

mutual
/-- Calls issued for one child of the directory at `parent`
(`item_path = posixpath.join(remote_dir_path, attr.filename)`): recurse into
subdirectories, `sftp.remove` files directly. -/
def delOps (parent : String) : FTree → List DelOp
  | .file n => [DelOp.remove (posixpathJoin parent n)]
  | .dir n cs => delDirOps (posixpathJoin parent n) cs

/-- `SFTPProvider._sftp_delete_recursive(sftp, p)` (479-496) on a directory
at `p` whose listing is `cs`: process every child in order, then
`sftp.rmdir(p)` last. -/
def delDirOps (p : String) (cs : List FTree) : List DelOp :=
  delChildrenOps p cs ++ [DelOp.rmdir p]

/-- The `for attr in sftp.listdir_attr(...)` loop, in listing order. -/
def delChildrenOps (p : String) : List FTree → List DelOp
  | [] => []
  | c :: cs => delOps p c ++ delChildrenOps p cs
end

/-- `SubdirAt p cs q es`: the directory at path `q` with listing `es` is the
directory at path `p` with listing `cs` itself, or a descendant
subdirectory reached through `posixpath.join`ed names. -/
inductive SubdirAt : String → List FTree → String → List FTree → Prop
  | refl (p : String) (cs : List FTree) : SubdirAt p cs p cs
  | step {p : String} {cs : List FTree} {q : String} {es : List FTree}
      (n : String) (ds : List FTree) (hmem : FTree.dir n ds ∈ cs)
      (h : SubdirAt (posixpathJoin p n) ds q es) : SubdirAt p cs q es

lemma getLast?_append_single {α : Type} (l : List α) (a : α) :
    (l ++ [a]).getLast? = some a := by
  induction l with
  | nil => rfl
  | cons x xs ih =>
    rw [List.cons_append, List.getLast?_cons, ih]
    simp

lemma mem_delChildren (p : String) (c : FTree) (cs : List FTree) (h : c ∈ cs) :
    delOps p c <:+: delChildrenOps p cs := by
  induction cs with
  | nil => cases h
  | cons c' cs' ih =>
    rcases List.mem_cons.mp h with rfl | h'
    · exact ⟨[], delChildrenOps p cs', by simp [delChildrenOps]⟩
    · obtain ⟨s, t, hst⟩ := ih h'
      exact ⟨delOps p c' ++ s, t, by simp [delChildrenOps, ← hst]⟩

lemma delChildren_inf_delDir (p : String) (cs : List FTree) :
    delChildrenOps p cs <:+: delDirOps p cs :=
  ⟨[], [DelOp.rmdir p], by simp [delDirOps]⟩

/-- C9: for every subdirectory (including the top directory itself) of the
tree being deleted, the calls `_sftp_delete_recursive` makes for that
subdirectory form a contiguous block of the whole trace whose LAST element
is the `rmdir` of that subdirectory: every child (file or subtree) of a
directory is removed strictly before the directory itself, and the top
directory's `rmdir` is the final call of the whole operation. -/
theorem delete_children_before_parent (p : String) (cs : List FTree) (q : String)
    (es : List FTree) (h : SubdirAt p cs q es) :
    delDirOps q es <:+: delDirOps p cs ∧
    (delDirOps q es).getLast? = some (DelOp.rmdir q) := by
  constructor
  · induction h with
    | refl p cs => exact ⟨[], [], by simp⟩
    | @step p' cs' q' es' n ds hmem hsub ih =>
      refine ih.trans ?_
      have h1 : delOps p' (FTree.dir n ds) <:+: delChildrenOps p' cs' :=
        mem_delChildren p' _ cs' hmem
      have h2 : delOps p' (FTree.dir n ds) = delDirOps (posixpathJoin p' n) ds := by
        rw [delOps]
      exact h2 ▸ (h1.trans (delChildren_inf_delDir p' cs'))
  · rw [delDirOps]
    exact getLast?_append_single _ _

/-- Witness for C9, on the spec's scenario tree (one subdirectory holding one
file, plus one top-level file). -/
theorem delete_children_before_parent_witness :
    delDirOps (posixpathJoin "/tmp/top" "sub") [FTree.file "f1"] <:+:
      delDirOps "/tmp/top" [FTree.dir "sub" [FTree.file "f1"], FTree.file "f2"] ∧
    (delDirOps (posixpathJoin "/tmp/top" "sub") [FTree.file "f1"]).getLast? =
      some (DelOp.rmdir (posixpathJoin "/tmp/top" "sub")) :=
  delete_children_before_parent "/tmp/top"
    [FTree.dir "sub" [FTree.file "f1"], FTree.file "f2"]
    (posixpathJoin "/tmp/top" "sub") [FTree.file "f1"]
    (SubdirAt.step "sub" [FTree.file "f1"] (List.mem_cons_self _ _)
      (SubdirAt.refl _ _))

end PyWebdavSftp
